import Mathlib

/-!
Verification of the rendology deferred-shading core.

Shallow embedding of `src/basic_obj/mod.rs` and `src/pipeline/deferred/mod.rs`.
`f32` arithmetic is modelled over `ℝ`; GPU resources (meshes, programs,
buffers) are modelled abstractly, with fallible facade calls represented by
explicit oracles returning `Except`.  A Rust `unwrap`/indexing panic is
modelled as `Option.none`.
-/

namespace Rendology

/-- The nine primitive kinds of `basic_obj::BasicObj` (src/basic_obj/mod.rs,
variants in declaration order, which fixes their dense indices via
`num_derive::FromPrimitive`/`ToPrimitive`). -/
inductive BasicObj where
  | Triangle
  | Quad
  | Cube
  | Sphere
  | LineX
  | LineY
  | LineZ
  | TessellatedCube
  | TessellatedCylinder
  deriving DecidableEq, Repr

/-- `pub const NUM_TYPES: usize = 9;` -/
def NUM_TYPES : Nat := 9

/-- `ToPrimitive::to_usize` as derived by `num_derive`: the variant's
discriminant, always `Some`. -/
def BasicObj.to_usize : BasicObj → Option Nat
  | .Triangle => some 0
  | .Quad => some 1
  | .Cube => some 2
  | .Sphere => some 3
  | .LineX => some 4
  | .LineY => some 5
  | .LineZ => some 6
  | .TessellatedCube => some 7
  | .TessellatedCylinder => some 8

/-- `FromPrimitive::from_usize` as derived by `num_derive`: the variant with
the given discriminant, `None` out of range. -/
def BasicObj.from_usize : Nat → Option BasicObj
  | 0 => some .Triangle
  | 1 => some .Quad
  | 2 => some .Cube
  | 3 => some .Sphere
  | 4 => some .LineX
  | 5 => some .LineY
  | 6 => some .LineZ
  | 7 => some .TessellatedCube
  | 8 => some .TessellatedCylinder
  | _ => none

/-- The nine kinds in dense-index order. -/
def allBasicObjs : List BasicObj :=
  [.Triangle, .Quad, .Cube, .Sphere, .LineX, .LineY, .LineZ,
   .TessellatedCube, .TessellatedCylinder]

theorem from_usize_range (i : Nat) (h : i < NUM_TYPES) :
    BasicObj.from_usize i = allBasicObjs.get? i := by
  unfold NUM_TYPES at h
  interval_cases i <;> rfl

theorem allBasicObjs_length : allBasicObjs.length = NUM_TYPES := rfl

/-- GPU resource-creation failure (`crate::CreationError`); the claims only
need its presence, not its payload. -/
inductive CreationError where
  | texture
  | program
  | buffer
  deriving DecidableEq, Repr

/-- `basic_obj::Resources { pub meshes: Vec<Mesh<Vertex>> }`; the mesh type is
abstract (`μ`). -/
structure Resources (μ : Type) where
  meshes : List μ

/-- The loop body of `Resources::create`: iterate over the given index list,
`from_usize(i).unwrap()` (a `None` result models the `unwrap` panic), call
`create_mesh` (the facade call is the oracle `cm`), push, failing fast on the
first error.  Also records the kinds whose `create_mesh` was attempted. -/
def createMeshLoop {μ : Type} (cm : BasicObj → Except CreationError μ) :
    List Nat → Option (List BasicObj × Except CreationError (List μ))
  | [] => some ([], .ok [])
  | i :: rest =>
    match BasicObj.from_usize i with
    | none => none
    | some k =>
      match cm k with
      | .error e => some ([k], .error e)
      | .ok m =>
        (createMeshLoop cm rest).map fun p => (k :: p.1, p.2.map (m :: ·))

/-- `Resources::create` (src/basic_obj/mod.rs lines 45-58): loop over
`0..NUM_TYPES`.  The result pairs the list of attempted kinds with the
returned `Result`. -/
def Resources.create {μ : Type} (cm : BasicObj → Except CreationError μ) :
    Option (List BasicObj × Except CreationError (Resources μ)) :=
  (createMeshLoop cm (List.range NUM_TYPES)).map fun p =>
    (p.1, p.2.map Resources.mk)

/-- `Resources::mesh` (lines 60-63): `&self.meshes[object.to_usize().unwrap()]`;
`none` models an `unwrap` or indexing panic. -/
def Resources.mesh {μ : Type} (r : Resources μ) (k : BasicObj) : Option μ :=
  k.to_usize.bind fun i => r.meshes[i]?

/-- The same loop over kinds directly, used to reason about `createMeshLoop`
once the `unwrap`s are discharged. -/
def kindLoop {μ : Type} (cm : BasicObj → Except CreationError μ) :
    List BasicObj → List BasicObj × Except CreationError (List μ)
  | [] => ([], .ok [])
  | k :: rest =>
    match cm k with
    | .error e => ([k], .error e)
    | .ok m =>
      let p := kindLoop cm rest
      (k :: p.1, p.2.map (m :: ·))

theorem createMeshLoop_eq_kindLoop {μ : Type} (cm : BasicObj → Except CreationError μ) :
    ∀ (l : List Nat) (ks : List BasicObj),
      l.map BasicObj.from_usize = ks.map some →
      createMeshLoop cm l = some (kindLoop cm ks) := by
  intro l
  induction l with
  | nil =>
    intro ks h
    cases ks with
    | nil => rfl
    | cons k ks' => simp at h
  | cons i rest ih =>
    intro ks h
    cases ks with
    | nil => simp at h
    | cons k ks' =>
      simp only [List.map_cons, List.cons.injEq] at h
      obtain ⟨h1, h2⟩ := h
      rw [createMeshLoop, h1]
      cases hk : cm k with
      | error e => simp [kindLoop, hk]
      | ok m => simp [kindLoop, hk, ih ks' h2]

theorem createMeshLoop_range {μ : Type} (cm : BasicObj → Except CreationError μ) :
    createMeshLoop cm (List.range NUM_TYPES) = some (kindLoop cm allBasicObjs) :=
  createMeshLoop_eq_kindLoop cm (List.range NUM_TYPES) allBasicObjs (by decide)

theorem kindLoop_success {μ : Type} (cm : BasicObj → Except CreationError μ)
    (f : BasicObj → μ) (hf : ∀ k, cm k = .ok (f k)) :
    ∀ l, kindLoop cm l = (l, .ok (l.map f)) := by
  intro l
  induction l with
  | nil => rfl
  | cons k rest ih => simp [kindLoop, hf k, ih, Except.map]

theorem kindLoop_failfast {μ : Type} (cm : BasicObj → Except CreationError μ) :
    ∀ (l : List BasicObj) (j : Nat) (k : BasicObj) (e : CreationError),
      l[j]? = some k → cm k = .error e →
      (∀ i k', i < j → l[i]? = some k' → ∃ m, cm k' = .ok m) →
      kindLoop cm l = (l.take (j + 1), .error e) := by
  intro l
  induction l with
  | nil => intro j k e hget; simp at hget
  | cons k0 rest ih =>
    intro j k e hget hke hpre
    cases j with
    | zero =>
      simp at hget
      subst hget
      simp [kindLoop, hke]
    | succ j' =>
      obtain ⟨m0, hm0⟩ := hpre 0 k0 (Nat.succ_pos j') (by simp)
      simp only [List.getElem?_cons_succ] at hget
      have hrec := ih j' k e hget hke
        (fun i k' hi h => hpre (i + 1) k' (by omega) (by simpa using h))
      simp [kindLoop, hm0, hrec, Except.map]

theorem kindLoop_ok_length {μ : Type} (cm : BasicObj → Except CreationError μ) :
    ∀ (l : List BasicObj) (att : List BasicObj) (ms : List μ),
      kindLoop cm l = (att, .ok ms) → ms.length = l.length := by
  intro l
  induction l with
  | nil =>
    intro att ms h
    rw [kindLoop] at h
    obtain ⟨-, h2⟩ := Prod.mk.injEq .. ▸ h
    cases h
    rfl
  | cons k0 rest ih =>
    intro att ms h
    cases hk : cm k0 with
    | error e =>
      rw [kindLoop, hk] at h
      cases h
    | ok m =>
      rw [kindLoop, hk] at h
      cases hrec : kindLoop cm rest with
      | mk att' r =>
        rw [hrec] at h
        cases r with
        | error e => cases h
        | ok ms' =>
          simp only [Except.map, Prod.mk.injEq] at h
          obtain ⟨-, h2⟩ := h
          cases h2
          simp [ih att' ms' hrec]

/-- `basic_obj::RenderList<I>(Vec<crate::RenderList<I>>)` (lines 76-110).
The inner `crate::RenderList` is not under src/; modelled from the spec: a
per-frame sequence of instance records, so a sublist is a `List I`. -/
structure BasicObjRenderList (I : Type) where
  lists : List (List I)

/-- `impl Default for RenderList` (lines 90-94):
`Self(vec![Default::default(); NUM_TYPES])`. -/
def BasicObjRenderList.default (I : Type) : BasicObjRenderList I :=
  ⟨List.replicate NUM_TYPES []⟩

/-- `RenderList::clear` (lines 79-83): calls the inner `clear` on every
sublist.  Modelled from the spec: the inner `crate::RenderList::clear`
empties the sublist. -/
def BasicObjRenderList.clear {I : Type} (rl : BasicObjRenderList I) :
    BasicObjRenderList I :=
  ⟨rl.lists.map fun _ => []⟩

/-- `impl Index<BasicObj> for RenderList` (lines 96-103):
`&self.0[object.to_usize().unwrap()]`; `none` models a panic. -/
def BasicObjRenderList.index {I : Type} (rl : BasicObjRenderList I)
    (k : BasicObj) : Option (List I) :=
  k.to_usize.bind fun i => rl.lists[i]?

/-- `basic_obj::Instancing<I>(Vec<crate::Instancing<I>>)` (line 112).  The
inner `crate::Instancing` is not under src/; modelled from the spec: GPU
storage whose contents are fully replaced on each update, so a buffer is the
`List I` it currently holds. -/
structure BasicObjInstancing (I : Type) where
  bufs : List (List I)

/-- Loop body of `Instancing::create` (lines 115-122): one inner
`crate::Instancing::create(facade)?` per index; the oracle `ic` says whether
the i-th creation succeeds.  Modelled from the spec: a fresh inner instancing
buffer is empty. -/
def instCreateLoop (I : Type) (ic : Nat → Bool) :
    List Nat → Except CreationError (List (List I))
  | [] => .ok []
  | i :: rest =>
    if ic i then (instCreateLoop I ic rest).map (([] : List I) :: ·)
    else .error .buffer

/-- `Instancing::create` (lines 115-122). -/
def BasicObjInstancing.create (I : Type) (ic : Nat → Bool) :
    Except CreationError (BasicObjInstancing I) :=
  (instCreateLoop I ic (List.range NUM_TYPES)).map BasicObjInstancing.mk

/-- Loop body of `Instancing::update` (lines 124-134):
`self.0[i].update(facade, render_list.0[i].as_slice())?` for each index;
`none` models an indexing panic, the oracle `uo` says whether the i-th inner
update succeeds.  Modelled from the spec: the inner update replaces that
buffer's contents with the render list's records. -/
def instUpdateLoop {I : Type} (uo : Nat → Bool) (rl : List (List I)) :
    List Nat → List (List I) → Option (Except CreationError (List (List I)))
  | [], bufs => some (.ok bufs)
  | i :: rest, bufs =>
    match bufs[i]?, rl[i]? with
    | some _, some data =>
      if uo i then instUpdateLoop uo rl rest (bufs.set i data)
      else some (.error .buffer)
    | _, _ => none

/-- `Instancing::update` (lines 124-134). -/
def BasicObjInstancing.update {I : Type} (uo : Nat → Bool)
    (inst : BasicObjInstancing I) (rl : BasicObjRenderList I) :
    Option (Except CreationError (BasicObjInstancing I)) :=
  (instUpdateLoop uo rl.lists (List.range NUM_TYPES) inst.bufs).map
    (·.map BasicObjInstancing.mk)

theorem instCreateLoop_ok_length (I : Type) (ic : Nat → Bool) :
    ∀ (l : List Nat) (bufs : List (List I)),
      instCreateLoop I ic l = .ok bufs → bufs.length = l.length := by
  intro l
  induction l with
  | nil =>
    intro bufs h
    cases h
    rfl
  | cons i rest ih =>
    intro bufs h
    rw [instCreateLoop] at h
    by_cases hi : ic i
    · rw [if_pos hi] at h
      cases hrec : instCreateLoop I ic rest with
      | error e => rw [hrec] at h; cases h
      | ok bufs' =>
        rw [hrec] at h
        simp only [Except.map] at h
        cases h
        simp [ih bufs' hrec]
    · rw [if_neg hi] at h
      cases h

theorem instUpdateLoop_ok {I : Type} (uo : Nat → Bool) (rl : List (List I)) :
    ∀ (l : List Nat) (bufs : List (List I)),
      (∀ i ∈ l, i < bufs.length) → (∀ i ∈ l, i < rl.length) →
      ∃ r, instUpdateLoop uo rl l bufs = some r ∧
        ∀ bufs', r = .ok bufs' → bufs'.length = bufs.length := by
  intro l
  induction l with
  | nil =>
    intro bufs _ _
    refine ⟨.ok bufs, rfl, ?_⟩
    intro bufs' h
    cases h
    rfl
  | cons i rest ih =>
    intro bufs hb hr
    have hib : i < bufs.length := hb i (by simp)
    have hir : i < rl.length := hr i (by simp)
    rw [instUpdateLoop, List.getElem?_eq_getElem hib, List.getElem?_eq_getElem hir]
    dsimp only
    by_cases hu : uo i
    · rw [if_pos hu]
      obtain ⟨r, hr1, hr2⟩ := ih (bufs.set i rl[i])
        (fun j hj => by simpa using hb j (by simp [hj]))
        (fun j hj => hr j (by simp [hj]))
      exact ⟨r, hr1, fun bufs' h => by simpa using hr2 bufs' h⟩
    · rw [if_neg hu]
      exact ⟨.error .buffer, rfl, fun bufs' h => by cases h⟩

theorem getElem?_isSome_of_lt {α : Type} (l : List α) (i : Nat)
    (h : i < l.length) : l[i]?.isSome = true := by
  rw [List.getElem?_eq_getElem h]
  rfl

theorem mesh_isSome_of_len {μ : Type} (ms : List μ)
    (hlen : ms.length = NUM_TYPES) (k : BasicObj) :
    ∃ i, k.to_usize = some i ∧ i < ms.length ∧
      ((Resources.mk ms).mesh k).isSome := by
  cases k <;>
    · refine ⟨_, rfl, ?_, ?_⟩
      · rw [hlen]
        decide
      · rw [Resources.mesh]
        simp only [BasicObj.to_usize, Option.some_bind]
        exact getElem?_isSome_of_lt _ _ (by rw [hlen]; decide)

theorem index_isSome_of_len {I : Type} (rl : BasicObjRenderList I)
    (hrl : rl.lists.length = NUM_TYPES) (k : BasicObj) :
    (rl.index k).isSome := by
  cases k <;>
    · rw [BasicObjRenderList.index]
      simp only [BasicObj.to_usize, Option.some_bind]
      exact getElem?_isSome_of_lt _ _ (by rw [hrl]; decide)

/-- C3: The mapping between the 9 `BasicObj` kinds and dense indices is a
bijection onto `[0, 9)`: converting an index in range to a kind and back
yields the index, and converting a kind to an index and back yields the
kind. -/
theorem C3_basic_obj_index_bijection :
    (∀ i, i < NUM_TYPES →
      (BasicObj.from_usize i).bind BasicObj.to_usize = some i)
  ∧ (∀ k : BasicObj, k.to_usize.bind BasicObj.from_usize = some k) := by
  constructor
  · intro i hi
    unfold NUM_TYPES at hi
    interval_cases i <;> rfl
  · intro k
    cases k <;> rfl

theorem C3_basic_obj_index_bijection_witness :
    (BasicObj.from_usize 5).bind BasicObj.to_usize = some 5 :=
  C3_basic_obj_index_bijection.1 5 (by decide)

/-- C6: `Resources::create` builds meshes for all 9 kinds in dense-index
order (so the `from_usize` unwrap never panics); if creating the mesh for
some kind fails, the error is returned at once, later kinds are not
attempted, and no `Resources` value (and no partial mesh list) is
returned. -/
theorem C6_resources_create_failfast :
    (∀ (μ : Type) (cm : BasicObj → Except CreationError μ),
      (Resources.create cm).isSome)
  ∧ (∀ (μ : Type) (cm : BasicObj → Except CreationError μ) (f : BasicObj → μ),
      (∀ k, cm k = .ok (f k)) →
      Resources.create cm = some (allBasicObjs, .ok ⟨allBasicObjs.map f⟩))
  ∧ (∀ (μ : Type) (cm : BasicObj → Except CreationError μ) (j : Nat)
      (k : BasicObj) (e : CreationError),
      allBasicObjs[j]? = some k → cm k = .error e →
      (∀ i k', i < j → allBasicObjs[i]? = some k' → ∃ m, cm k' = .ok m) →
      Resources.create cm = some (allBasicObjs.take (j + 1), .error e)) := by
  refine ⟨?_, ?_, ?_⟩
  · intro μ cm
    rw [Resources.create, createMeshLoop_range]
    rfl
  · intro μ cm f hf
    rw [Resources.create, createMeshLoop_range, kindLoop_success cm f hf]
    rfl
  · intro μ cm j k e hget hke hpre
    rw [Resources.create, createMeshLoop_range,
      kindLoop_failfast cm allBasicObjs j k e hget hke hpre]
    rfl

theorem C6_resources_create_failfast_witness :
    Resources.create
        (fun k => if k = .Cube then .error .texture else .ok (0 : Nat))
      = some ([.Triangle, .Quad, .Cube], .error CreationError.texture) := by
  have h := C6_resources_create_failfast.2.2 Nat
    (fun k => if k = .Cube then .error .texture else .ok (0 : Nat))
    2 .Cube .texture (by rfl) (by rfl) ?_
  · exact h
  · intro i k' hi hk
    interval_cases i <;> simp only [allBasicObjs] at hk <;>
      simp at hk <;> subst hk <;> exact ⟨0, rfl⟩

/-- C7: For a `Resources` value returned successfully by `Resources::create`
and any kind, `mesh(kind)` cannot panic: the kind-to-index conversion
succeeds, the mesh list has exactly `NUM_TYPES` entries, and the index is in
bounds, so the lookup yields a value. -/
theorem C7_mesh_lookup_total :
    ∀ (μ : Type) (cm : BasicObj → Except CreationError μ)
      (att : List BasicObj) (ms : List μ),
      Resources.create cm = some (att, .ok ⟨ms⟩) →
      ms.length = NUM_TYPES ∧
      ∀ k : BasicObj, ∃ i, k.to_usize = some i ∧ i < ms.length ∧
        ((Resources.mk ms).mesh k).isSome := by
  intro μ cm att ms h
  rw [Resources.create, createMeshLoop_range] at h
  cases hkl : kindLoop cm allBasicObjs with
  | mk att' r =>
    rw [hkl] at h
    cases r with
    | error e => cases h
    | ok ms' =>
      simp only [Option.map_some', Except.map, Option.some.injEq,
        Prod.mk.injEq] at h
      obtain ⟨-, h2⟩ := h
      have hms : ms' = ms := by
        cases h2
        rfl
      subst hms
      have hlen : ms'.length = NUM_TYPES := by
        rw [kindLoop_ok_length cm allBasicObjs att' ms' hkl]
        rfl
      exact ⟨hlen, mesh_isSome_of_len ms' hlen⟩

theorem C7_mesh_lookup_total_witness :
    (allBasicObjs.map fun _ => (0 : Nat)).length = NUM_TYPES ∧
    ∀ k : BasicObj, ∃ i, k.to_usize = some i ∧
      i < (allBasicObjs.map fun _ => (0 : Nat)).length ∧
      ((Resources.mk (allBasicObjs.map fun _ => (0 : Nat))).mesh k).isSome :=
  C7_mesh_lookup_total Nat (fun _ => .ok 0) allBasicObjs _
    (C6_resources_create_failfast.2.1 Nat _ (fun _ => (0 : Nat))
      (fun _ => rfl))

/-- C10: the per-kind `RenderList` built by `Default` and the per-kind
`Instancing` built by `Instancing::create` hold exactly `NUM_TYPES` entries;
`clear` and `update` preserve that count (`update` runs without an indexing
panic on such values), and indexing by any kind is in bounds. -/
theorem C10_nine_per_kind_entries :
    (∀ (I : Type), (BasicObjRenderList.default I).lists.length = NUM_TYPES)
  ∧ (∀ (I : Type) (rl : BasicObjRenderList I),
      rl.clear.lists.length = rl.lists.length)
  ∧ (∀ (I : Type) (ic : Nat → Bool) (inst : BasicObjInstancing I),
      BasicObjInstancing.create I ic = .ok inst →
      inst.bufs.length = NUM_TYPES)
  ∧ (∀ (I : Type) (uo : Nat → Bool) (inst : BasicObjInstancing I)
      (rl : BasicObjRenderList I),
      inst.bufs.length = NUM_TYPES → rl.lists.length = NUM_TYPES →
      ∃ r, inst.update uo rl = some r ∧
        ∀ inst', r = .ok inst' → inst'.bufs.length = NUM_TYPES)
  ∧ (∀ (I : Type) (rl : BasicObjRenderList I) (k : BasicObj),
      rl.lists.length = NUM_TYPES → (rl.index k).isSome) := by
  refine ⟨?_, ?_, ?_, ?_, ?_⟩
  · intro I
    simp [BasicObjRenderList.default]
  · intro I rl
    simp [BasicObjRenderList.clear]
  · intro I ic inst h
    rw [BasicObjInstancing.create] at h
    cases hl : instCreateLoop I ic (List.range NUM_TYPES) with
    | error e => rw [hl] at h; cases h
    | ok bufs =>
      rw [hl] at h
      simp only [Except.map] at h
      cases h
      rw [instCreateLoop_ok_length I ic (List.range NUM_TYPES) bufs hl]
      simp
  · intro I uo inst rl hil hrl
    obtain ⟨r0, hr1, hr2⟩ := instUpdateLoop_ok uo rl.lists
      (List.range NUM_TYPES) inst.bufs
      (fun i hi => by rw [hil]; simpa using hi)
      (fun i hi => by rw [hrl]; simpa using hi)
    refine ⟨r0.map BasicObjInstancing.mk, ?_, ?_⟩
    · rw [BasicObjInstancing.update, hr1]
      rfl
    · intro inst' h
      cases r0 with
      | error e => simp [Except.map] at h
      | ok bufs' =>
        simp only [Except.map, Except.ok.injEq] at h
        subst h
        rw [show (BasicObjInstancing.mk bufs').bufs = bufs' from rfl,
          hr2 bufs' rfl, hil]
  · intro I rl k hrl
    exact index_isSome_of_len rl hrl k

theorem C10_nine_per_kind_entries_witness :
    ∃ r, (BasicObjInstancing.mk (List.replicate NUM_TYPES ([] : List Nat))).update
        (fun _ => true) (BasicObjRenderList.default Nat) = some r ∧
      ∀ inst', r = .ok inst' → inst'.bufs.length = NUM_TYPES :=
  C10_nine_per_kind_entries.2.2.2.1 Nat (fun _ => true) _ _ (by rfl) (by rfl)

/-! ## Deferred shading pipeline (src/pipeline/deferred/mod.rs)

`f32` values are modelled over `ℝ`.  GPU textures carry an allocation
identity, their dimensions and their pixel format; other GPU resources
(programs, the screen quad, the sphere mesh) are abstract type parameters.
Fallible facade calls are modelled by oracles. -/

/-- A 3-component `f32` vector (`nalgebra::Vector3<f32>`), over `ℝ`. -/
structure Vec3 where
  x : ℝ
  y : ℝ
  z : ℝ

/-- `crate::Light` is not under src/.  Modelled from the spec: a light has an
RGB color, attenuation coefficients (constant, linear, quadratic, as the
`x`/`y`/`z` components of `attenuation`), an `is_main` flag and a derived
`radius` — exactly the fields `light_pass` reads and writes. -/
structure Light where
  color : Vec3
  attenuation : Vec3
  is_main : Bool
  radius : ℝ

/-- `deferred::Config` (lines 27-38). -/
structure Config where
  light_min_threshold : ℝ

/-- `impl Default for Config`: threshold 0.02. -/
def Config.default : Config := ⟨0.02⟩

/-- A 4×4 `f32` matrix (`nalgebra::Matrix4<f32>`). -/
def Mat4 : Type := Fin 4 → Fin 4 → ℝ

/-- `na::Matrix4::identity()`. -/
def mat4Identity : Mat4 := fun i j => if i = j then 1 else 0

/-- `crate::Camera` is not under src/.  Modelled from the spec: view and
projection matrices plus the viewport size, the three fields `light_pass`
reads. -/
structure Camera where
  view : Mat4
  projection : Mat4
  viewport_size : ℝ × ℝ

/-- The two `glium::texture::UncompressedFloatFormat`s the pipeline
requests. -/
inductive TexFormat where
  | F32F32F32F32
  | F32
  deriving DecidableEq, Repr

/-- A `glium::Texture2d`: allocation identity, dimensions and format. -/
structure Texture2d where
  id : Nat
  width : Nat
  height : Nat
  fmt : TexFormat
  deriving DecidableEq, Repr

/-- The texture-allocating facade: a fresh-id counter and an oracle saying
which allocation (by id) fails. -/
structure TexAlloc where
  nextId : Nat
  fail : Nat → Bool

/-- `glium::Texture2d::empty_with_format`: either fails or yields a fresh
texture with exactly the requested dimensions and format. -/
def allocTex (a : TexAlloc) (fmt : TexFormat) (size : Nat × Nat) :
    Except CreationError (Texture2d × TexAlloc) :=
  if a.fail a.nextId then .error .texture
  else .ok (⟨a.nextId, size.1, size.2, fmt⟩, ⟨a.nextId + 1, a.fail⟩)

/-- `DeferredShading::create_texture` (lines 318-329): RGBA `F32F32F32F32`,
no mipmaps. -/
def create_texture (a : TexAlloc) (size : Nat × Nat) :
    Except CreationError (Texture2d × TexAlloc) :=
  allocTex a .F32F32F32F32 size

/-- `DeferredShading::create_shadow_texture` (lines 331-342): single-channel
`F32`. -/
def create_shadow_texture (a : TexAlloc) (size : Nat × Nat) :
    Except CreationError (Texture2d × TexAlloc) :=
  allocTex a .F32 size

/-- The `DeferredShading` struct (lines 42-58).  `Prog`, `Quad` and `MeshT`
abstract over `glium::Program`, `ScreenQuad` and `Mesh<basic_obj::Vertex>`.
`light_instancing` models the contents of the `crate::Instancing<Light>`
buffer; the inner `Instancing` is not under src/, modelled from the spec as
the record list it currently stores (contents fully replaced each update). -/
structure DeferredShading (Prog Quad MeshT : Type) where
  config : Config
  scene_textures : Texture2d × Texture2d
  shadow_texture : Option Texture2d
  light_texture : Texture2d
  main_light_screen_quad_program : Prog
  light_object_program : Prog
  screen_quad : Quad
  sphere : MeshT
  light_instances : List Light
  light_instancing : List Light

/-- The non-texture fallible facade calls that `DeferredShading::create`
makes, in source order. -/
structure DeferredFacade (Prog Quad MeshT : Type) where
  mainLightProgram : Bool → Except CreationError Prog
  lightObjectProgram : Except CreationError Prog
  screenQuadCreate : Except CreationError Quad
  sphereMesh : Except CreationError MeshT
  lightInstancingCreate : Except CreationError Unit

/-- `DeferredShading::create` (lines 135-184): two scene textures, the
optional shadow texture, the light texture, the two programs, the screen
quad, the sphere mesh and the (empty) light instancing buffer, failing fast
on the first error. -/
def DeferredShading.create {P Q M : Type} (fac : DeferredFacade P Q M)
    (a : TexAlloc) (config : Config) (have_shadows : Bool)
    (target_size : Nat × Nat) :
    Except CreationError (DeferredShading P Q M × TexAlloc) :=
  match create_texture a target_size with
  | .error e => .error e
  | .ok (t0, a1) =>
  match create_texture a1 target_size with
  | .error e => .error e
  | .ok (t1, a2) =>
  match (if have_shadows then
           (create_shadow_texture a2 target_size).map
             fun (p : Texture2d × TexAlloc) => (some p.1, p.2)
         else .ok ((none : Option Texture2d), a2)) with
  | .error e => .error e
  | .ok (shadow, a3) =>
  match create_texture a3 target_size with
  | .error e => .error e
  | .ok (lt, a4) =>
  match fac.mainLightProgram have_shadows with
  | .error e => .error e
  | .ok mainProg =>
  match fac.lightObjectProgram with
  | .error e => .error e
  | .ok lightProg =>
  match fac.screenQuadCreate with
  | .error e => .error e
  | .ok quad =>
  match fac.sphereMesh with
  | .error e => .error e
  | .ok sphere =>
  match fac.lightInstancingCreate with
  | .error e => .error e
  | .ok _ =>
  .ok ({ config := config,
         scene_textures := (t0, t1),
         shadow_texture := shadow,
         light_texture := lt,
         main_light_screen_quad_program := mainProg,
         light_object_program := lightProg,
         screen_quad := quad,
         sphere := sphere,
         light_instances := [],
         light_instancing := [] }, a4)

/-- `DeferredShading::on_target_resize` (lines 186-208): recreate the two
scene textures, the shadow texture if one is present, and the light texture
at the new size; nothing else is touched.  An allocation failure propagates
the error (the claim addressed here concerns the successful call). -/
def DeferredShading.on_target_resize {P Q M : Type} (a : TexAlloc)
    (s : DeferredShading P Q M) (target_size : Nat × Nat) :
    Except CreationError (DeferredShading P Q M × TexAlloc) :=
  match create_texture a target_size with
  | .error e => .error e
  | .ok (t0, a1) =>
  match create_texture a1 target_size with
  | .error e => .error e
  | .ok (t1, a2) =>
  match (match s.shadow_texture with
         | some _ =>
           (create_shadow_texture a2 target_size).map
             fun (p : Texture2d × TexAlloc) => (some p.1, p.2)
         | none => .ok ((none : Option Texture2d), a2)) with
  | .error e => .error e
  | .ok (shadow, a3) =>
  match create_texture a3 target_size with
  | .error e => .error e
  | .ok (lt, a4) =>
  .ok ({ s with scene_textures := (t0, t1),
                shadow_texture := shadow,
                light_texture := lt }, a4)

/-- `ScenePassComponent::output_textures` for `DeferredShading`
(lines 85-96): the two named G-buffer textures, plus `f_shadow` when a
shadow texture is present. -/
def DeferredShading.output_textures {P Q M : Type}
    (s : DeferredShading P Q M) : List (String × Texture2d) :=
  [("f_world_pos", s.scene_textures.1), ("f_world_normal", s.scene_textures.2)]
    ++ (match s.shadow_texture with
        | some t => [("f_shadow", t)]
        | none => [])

/-- `crate::DrawError`; the claims only need its presence. -/
inductive DrawError where
  | framebuffer
  | creation
  | draw
  deriving DecidableEq, Repr

/-- One multi-output clear operation: the textures it writes and the clear
color. -/
structure MultiOutputClear where
  targets : List (String × Texture2d)
  clear_color : ℝ × ℝ × ℝ × ℝ

/-- `RenderPassComponent::clear_buffers` for `DeferredShading`
(lines 60-70): build a `MultiOutputFrameBuffer` over `output_textures()`
(the oracle `fb_ok` says whether that succeeds) and clear it to
`(0.0, 0.0, 0.0, 1.0)`. -/
def DeferredShading.clear_buffers {P Q M : Type} (fb_ok : Bool)
    (s : DeferredShading P Q M) : Except DrawError MultiOutputClear :=
  if fb_ok then
    .ok { targets := s.output_textures, clear_color := (0, 0, 0, 1) }
  else .error .framebuffer

/-- `light.color.x.max(light.color.y).max(light.color.z)` (line 255). -/
noncomputable def iMax (c : Vec3) : ℝ := max (max c.x c.y) c.z

/-- The per-light radius computation of `light_pass` (lines 255-260):
`radicand = a1² - 4·a2·(a0 - i_max·1.0/threshold)`,
`radius = (-a1 + sqrt(radicand)) / (2·a2)`. -/
noncomputable def lightRadius (cfg : Config) (l : Light) : ℝ :=
  let radicand := l.attenuation.y ^ 2 -
    4 * l.attenuation.z *
      (l.attenuation.x - iMax l.color * 1 / cfg.light_min_threshold)
  (-l.attenuation.y + Real.sqrt radicand) / (2 * l.attenuation.z)

/-- `Light { radius, ..light.clone() }` (lines 262-265). -/
noncomputable def lightWithRadius (cfg : Config) (l : Light) : Light :=
  { l with radius := lightRadius cfg l }

/-- The instance-collection loop of `light_pass` (lines 249-268): skip main
lights, give every other light its computed radius and push its instance
record (`Light::to_vertex` is not under src/; modelled from the spec as the
record of the light's fields, i.e. the light value itself). -/
noncomputable def collectLightInstances (cfg : Config) (acc : List Light) :
    List Light → List Light
  | [] => acc
  | l :: rest =>
    if l.is_main then collectLightInstances cfg acc rest
    else collectLightInstances cfg (acc ++ [lightWithRadius cfg l]) rest

/-- `glium::draw_parameters::BackfaceCullingMode` as used here. -/
inductive CullMode where
  | cullClockwise
  | cullCounterClockwise
  deriving DecidableEq, Repr

/-- The additive one/one `glium::BlendingFunction` used by the light pass. -/
inductive BlendingFunction where
  | additionOneOne
  deriving DecidableEq, Repr

/-- The `glium::Blend` of the light pass. -/
structure Blend where
  color : BlendingFunction
  alpha : BlendingFunction
  constant_value : ℝ × ℝ × ℝ × ℝ

/-- The fields of `glium::DrawParameters` the light pass sets. -/
structure DrawParameters where
  backface_culling : CullMode
  blend : Blend

/-- The `draw_params` built at the top of `light_pass` (lines 216-230):
clockwise (back-face) culling, additive blending on color and alpha,
constant value `(1,1,1,1)`. -/
def lightPassDrawParams : DrawParameters :=
  { backface_culling := .cullClockwise,
    blend := { color := .additionOneOne,
               alpha := .additionOneOne,
               constant_value := (1, 1, 1, 1) } }

/-- The G-buffer (and optional shadow) sampler uniforms bound by
`light_pass` (lines 237-247). -/
structure TextureUniforms where
  position_texture : Texture2d
  normal_texture : Texture2d
  shadow_texture : Option Texture2d

/-- A GPU command submitted by `light_pass`, with every input the draw
depends on. -/
inductive GpuOp (P Q M : Type) where
  | clearColor (target : Texture2d) (c : ℝ × ℝ × ℝ × ℝ)
  | uploadLightInstances (records : List Light)
  | drawMainLight (program : P) (quad : Q) (textures : TextureUniforms)
      (camera : Camera) (light : Light) (params : DrawParameters)
  | drawPointLights (program : P) (sphere : M) (textures : TextureUniforms)
      (camera : Camera) (instances : List Light) (params : DrawParameters)

/-- Oracle for the fallible GPU calls inside `light_pass`: framebuffer
creation, the instancing-buffer upload, and each draw submission (numbered
in submission order). -/
structure DrawOracle where
  framebuffer_ok : Bool
  update_ok : Bool
  draw_ok : Nat → Bool

/-- A fully successful `DrawOracle`. -/
def allOkDraw : DrawOracle := ⟨true, true, fun _ => true⟩

/-- The main-light loop of `light_pass` (lines 273-293): one full-screen
draw per light with `is_main`, using `no_camera` (identity view and
projection, the caller's viewport size), aborting on the first failed
draw.  Returns the executed ops, the next draw index and the error, if
any. -/
noncomputable def mainLightDrawLoop {P Q M : Type} (draw_ok : Nat → Bool)
    (prog : P) (quad : Q) (textures : TextureUniforms)
    (viewport : ℝ × ℝ) :
    Nat → List Light → List (GpuOp P Q M) × Nat × Option DrawError
  | idx, [] => ([], idx, none)
  | idx, l :: rest =>
    if l.is_main then
      if draw_ok idx then
        let no_camera : Camera :=
          { view := mat4Identity, projection := mat4Identity,
            viewport_size := viewport }
        let p := mainLightDrawLoop draw_ok prog quad textures viewport
          (idx + 1) rest
        (GpuOp.drawMainLight prog quad textures no_camera l
          lightPassDrawParams :: p.1, p.2)
      else ([], idx, some .draw)
    else mainLightDrawLoop draw_ok prog quad textures viewport idx rest

/-- The draw phase of `light_pass` (lines 273-313): the main-light loop
followed by one bulk-instanced point-light draw with the caller's camera and
counter-clockwise (front-face) culling. -/
noncomputable def drawPhase {P Q M : Type} (draw_ok : Nat → Bool)
    (prog_main : P) (quad : Q) (prog_obj : P) (sphere : M)
    (textures : TextureUniforms) (camera : Camera)
    (instances : List Light) (lights : List Light) :
    List (GpuOp P Q M) × Option DrawError :=
  let p := mainLightDrawLoop draw_ok prog_main quad textures
    camera.viewport_size 0 lights
  match p.2.2 with
  | some err => (p.1, some err)
  | none =>
    if draw_ok p.2.1 then
      (p.1 ++ [GpuOp.drawPointLights prog_obj sphere textures camera
        instances
        { lightPassDrawParams with backface_culling := .cullCounterClockwise }],
       none)
    else (p.1, some .draw)

/-- `DeferredShading::light_pass` (lines 210-316): build the light-texture
framebuffer, clear it to `(0,0,0,1)`, collect the point-light instance
records, upload them (replacing the buffer's contents), draw each main
light full-screen, then draw all point lights instanced.  Returns the final
state, the executed GPU ops in order, and the error that aborted the pass,
if any. -/
noncomputable def DeferredShading.light_pass {P Q M : Type} (df : DrawOracle)
    (s : DeferredShading P Q M) (camera : Camera) (lights : List Light) :
    DeferredShading P Q M × List (GpuOp P Q M) × Option DrawError :=
  if df.framebuffer_ok then
    let ops0 : List (GpuOp P Q M) :=
      [.clearColor s.light_texture (0, 0, 0, 1)]
    let textures : TextureUniforms :=
      { position_texture := s.scene_textures.1,
        normal_texture := s.scene_textures.2,
        shadow_texture := s.shadow_texture }
    let instances := collectLightInstances s.config [] lights
    let s1 := { s with light_instances := instances }
    if df.update_ok then
      let s2 := { s1 with light_instancing := instances }
      let p := drawPhase df.draw_ok s.main_light_screen_quad_program
        s.screen_quad s.light_object_program s.sphere textures camera
        instances lights
      (s2, ops0 ++ [.uploadLightInstances instances] ++ p.1, p.2)
    else (s1, ops0, some .creation)
  else (s, [], some .framebuffer)

/-- The spec's radius formula, written from the spec's words for comparison
with the code's `lightRadius`:
`(-a1 + sqrt(a1² - 4·a2·(a0 - I_peak/threshold))) / (2·a2)` with `I_peak`
the color's maximum channel. -/
noncomputable def specLightRadius (cfg : Config) (l : Light) : ℝ :=
  (-l.attenuation.y +
    Real.sqrt (l.attenuation.y ^ 2 -
      4 * l.attenuation.z *
        (l.attenuation.x - iMax l.color / cfg.light_min_threshold))) /
  (2 * l.attenuation.z)

theorem radius_root (a0 a1 a2 ip t : ℝ) (ha2 : a2 ≠ 0) (ht : t ≠ 0)
    (hD : 0 ≤ a1 ^ 2 - 4 * a2 * (a0 - ip / t)) :
    a0 + a1 * ((-a1 + Real.sqrt (a1 ^ 2 - 4 * a2 * (a0 - ip / t))) / (2 * a2))
      + a2 * ((-a1 + Real.sqrt (a1 ^ 2 - 4 * a2 * (a0 - ip / t))) / (2 * a2)) ^ 2
      = ip / t := by
  have hs : Real.sqrt (a1 ^ 2 - 4 * a2 * (a0 - ip / t)) ^ 2
      = a1 ^ 2 - 4 * a2 * (a0 - ip / t) := Real.sq_sqrt hD
  have hs' : t * Real.sqrt (a1 ^ 2 - 4 * a2 * (a0 - ip / t)) ^ 2
      = t * a1 ^ 2 - 4 * a2 * (t * a0 - ip) := by
    rw [hs]
    field_simp
    ring
  generalize Real.sqrt (a1 ^ 2 - 4 * a2 * (a0 - ip / t)) = s at hs'
  field_simp
  linear_combination (2 * a2 ^ 2) * hs'

theorem intensity_at_radius (a0 a1 a2 ip t : ℝ) (ha2 : a2 ≠ 0) (ht : t ≠ 0)
    (hip : ip ≠ 0)
    (hD : 0 ≤ a1 ^ 2 - 4 * a2 * (a0 - ip / t)) :
    ip / (a0 + a1 * ((-a1 + Real.sqrt (a1 ^ 2 - 4 * a2 * (a0 - ip / t))) / (2 * a2))
      + a2 * ((-a1 + Real.sqrt (a1 ^ 2 - 4 * a2 * (a0 - ip / t))) / (2 * a2)) ^ 2)
      = t := by
  rw [radius_root a0 a1 a2 ip t ha2 ht hD]
  rw [div_div_eq_mul_div, mul_comm, mul_div_assoc, div_self hip, mul_one]

/-- C1: the radius computed by `light_pass` for a non-main light equals the
spec's closed-form root
`(-a1 + sqrt(a1² - 4·a2·(a0 - I_peak/threshold))) / (2·a2)`; and for
attenuation `(1, 0.1, 0.01)`, peak intensity `1.0` and threshold `0.02`,
the attenuated intensity at the computed radius is `0.02` within `1e-4`. -/
theorem C1_light_radius :
    (∀ (cfg : Config) (l : Light), lightRadius cfg l = specLightRadius cfg l)
  ∧ (∀ l : Light, l.attenuation = ⟨1, 0.1, 0.01⟩ → iMax l.color = 1 →
      |iMax l.color /
          (l.attenuation.x +
            l.attenuation.y * lightRadius Config.default l +
            l.attenuation.z * lightRadius Config.default l ^ 2) -
        0.02| ≤ 1e-4) := by
  constructor
  · intro cfg l
    simp only [lightRadius, specLightRadius, mul_one]
  · intro l ha hi
    have key := intensity_at_radius 1 0.1 0.01 1 0.02 (by norm_num)
      (by norm_num) (by norm_num) (by norm_num)
    have hr : lightRadius Config.default l
        = (-0.1 + Real.sqrt ((0.1 : ℝ) ^ 2 - 4 * 0.01 * (1 - 1 / 0.02)))
          / (2 * 0.01) := by
      rw [lightRadius, ha, hi]
      dsimp [Config.default]
      norm_num
    rw [ha, hi, hr]
    dsimp
    rw [key]
    norm_num

theorem C1_light_radius_witness :
    |iMax (⟨1, 1, 1⟩ : Vec3) /
        ((1 : ℝ) +
          (0.1 : ℝ) * lightRadius Config.default ⟨⟨1, 1, 1⟩, ⟨1, 0.1, 0.01⟩, false, 0⟩ +
          (0.01 : ℝ) * lightRadius Config.default ⟨⟨1, 1, 1⟩, ⟨1, 0.1, 0.01⟩, false, 0⟩ ^ 2) -
      0.02| ≤ 1e-4 := by
  have h := C1_light_radius.2 ⟨⟨1, 1, 1⟩, ⟨1, 0.1, 0.01⟩, false, 0⟩ rfl
    (by simp [iMax])
  simpa [iMax] using h

/-- A texture allocator whose allocations all succeed, starting at id 0. -/
def okTexAlloc : TexAlloc := ⟨0, fun _ => false⟩

/-- A facade whose non-texture creations all succeed, with trivial program,
quad and mesh objects. -/
def okFacade : DeferredFacade Unit Unit Unit :=
  ⟨fun _ => .ok (), .ok (), .ok (), .ok (), .ok ()⟩

/-- The state `DeferredShading::create` builds with shadows enabled at
800×600 under `okFacade`/`okTexAlloc`: scene textures ids 0 and 1, shadow
texture id 2, light texture id 3. -/
def shadowExampleState : DeferredShading Unit Unit Unit :=
  { config := Config.default,
    scene_textures :=
      (⟨0, 800, 600, .F32F32F32F32⟩, ⟨1, 800, 600, .F32F32F32F32⟩),
    shadow_texture := some ⟨2, 800, 600, .F32⟩,
    light_texture := ⟨3, 800, 600, .F32F32F32F32⟩,
    main_light_screen_quad_program := (),
    light_object_program := (),
    screen_quad := (),
    sphere := (),
    light_instances := [],
    light_instancing := [] }

/-- C2 counterexample: on the state built by a successful
`create(have_shadows = true)`, the single multi-output clear issued by
`clear_buffers` covers only `output_textures()` — the two G-buffer textures
and the shadow texture — and the light-accumulation texture is not among its
targets, contradicting the claim that the `clear_buffers` clear covers it. -/
theorem C2_clear_counterexample :
    DeferredShading.create okFacade okTexAlloc Config.default true (800, 600)
        = .ok (shadowExampleState, ⟨4, okTexAlloc.fail⟩) ∧
    DeferredShading.clear_buffers true shadowExampleState
        = .ok { targets := shadowExampleState.output_textures,
                clear_color := (0, 0, 0, 1) } ∧
    shadowExampleState.light_texture ∉
      shadowExampleState.output_textures.map Prod.snd := by
  refine ⟨rfl, rfl, ?_⟩
  decide

/-- C2 (amended): `clear_buffers` clears, via one multi-output clear to
`(0,0,0,1)` (black color, alpha one), exactly the scene-pass output
textures — the two G-buffer textures plus the shadow texture if present —
while the light-accumulation texture is cleared separately, to the same
color, as the first GPU operation of `light_pass`. -/
theorem C2_clear_phase_amended :
    (∀ (P Q M : Type) (s : DeferredShading P Q M) (fb_ok : Bool)
      (op : MultiOutputClear),
      DeferredShading.clear_buffers fb_ok s = .ok op →
      op.clear_color = (0, 0, 0, 1) ∧
      op.targets.map Prod.snd =
        [s.scene_textures.1, s.scene_textures.2] ++ s.shadow_texture.toList)
  ∧ (∀ (P Q M : Type) (df : DrawOracle) (s : DeferredShading P Q M)
      (camera : Camera) (lights : List Light),
      df.framebuffer_ok = true →
      (DeferredShading.light_pass df s camera lights).2.1.head? =
        some (.clearColor s.light_texture (0, 0, 0, 1))) := by
  constructor
  · intro P Q M s fb_ok op h
    cases fb_ok with
    | false => cases h
    | true =>
      rw [DeferredShading.clear_buffers, if_pos rfl] at h
      cases h
      refine ⟨rfl, ?_⟩
      cases hst : s.shadow_texture <;>
        simp [DeferredShading.output_textures, hst]
  · intro P Q M df s camera lights hfb
    rw [DeferredShading.light_pass, if_pos hfb]
    by_cases hu : df.update_ok = true
    · rw [if_pos hu]
      rfl
    · rw [if_neg hu]
      rfl

theorem C2_clear_phase_amended_witness :
    ({ targets := shadowExampleState.output_textures,
       clear_color := (0, 0, 0, 1) } : MultiOutputClear).clear_color
        = (0, 0, 0, 1) ∧
    ({ targets := shadowExampleState.output_textures,
       clear_color := (0, 0, 0, 1) } : MultiOutputClear).targets.map Prod.snd
        = [shadowExampleState.scene_textures.1,
           shadowExampleState.scene_textures.2]
          ++ shadowExampleState.shadow_texture.toList :=
  C2_clear_phase_amended.1 Unit Unit Unit shadowExampleState true _ rfl

theorem except_bind_ok {ε α β : Type} {x : Except ε α} {f : α → Except ε β}
    {b : β} (h : x >>= f = .ok b) : ∃ a, x = .ok a ∧ f a = .ok b := by
  cases x with
  | error e => cases h
  | ok a => exact ⟨a, rfl, h⟩

theorem except_map_ok {ε α β : Type} {x : Except ε α} {f : α → β} {b : β}
    (h : x.map f = .ok b) : ∃ a, x = .ok a ∧ f a = b := by
  cases x with
  | error e => cases h
  | ok a =>
    cases h
    exact ⟨a, rfl, rfl⟩

theorem collectLightInstances_eq (cfg : Config) :
    ∀ (lights : List Light) (acc : List Light),
      collectLightInstances cfg acc lights =
        acc ++ (lights.filter fun l => !l.is_main).map (lightWithRadius cfg) := by
  intro lights
  induction lights with
  | nil =>
    intro acc
    simp [collectLightInstances]
  | cons l rest ih =>
    intro acc
    rw [collectLightInstances]
    by_cases hm : l.is_main = true
    · rw [if_pos hm]
      simp [ih, hm]
    · rw [if_neg hm]
      rw [Bool.not_eq_true] at hm
      simp [ih, hm]

/-- C4: after the instance-collection step of a `light_pass` that reaches the
upload, the record sequence held in `light_instances` is exactly the
non-main input lights, in input order, each with its computed radius; the
upload replaces the instancing buffer's contents with precisely that
sequence, and the upload operation is among the executed GPU ops. -/
theorem C4_light_instance_collection :
    ∀ (P Q M : Type) (df : DrawOracle) (s : DeferredShading P Q M)
      (camera : Camera) (lights : List Light)
      (s' : DeferredShading P Q M) (ops : List (GpuOp P Q M))
      (e : Option DrawError),
      df.framebuffer_ok = true → df.update_ok = true →
      DeferredShading.light_pass df s camera lights = (s', ops, e) →
      s'.light_instances =
        (lights.filter fun l => !l.is_main).map (lightWithRadius s.config) ∧
      s'.light_instancing = s'.light_instances ∧
      GpuOp.uploadLightInstances s'.light_instances ∈ ops := by
  intro P Q M df s camera lights s' ops e hfb hupd h
  rw [DeferredShading.light_pass, if_pos hfb] at h
  dsimp only at h
  rw [if_pos hupd] at h
  rw [Prod.mk.injEq, Prod.mk.injEq] at h
  obtain ⟨hs, hops, -⟩ := h
  subst hs
  subst hops
  refine ⟨?_, rfl, ?_⟩
  · dsimp only
    exact collectLightInstances_eq s.config lights []
  · dsimp only
    simp

theorem C4_light_instance_collection_witness :
    ∃ (s' : DeferredShading Unit Unit Unit)
      (ops : List (GpuOp Unit Unit Unit)) (e : Option DrawError),
      DeferredShading.light_pass allOkDraw shadowExampleState
        ⟨mat4Identity, mat4Identity, (800, 600)⟩
        [⟨⟨1, 1, 1⟩, ⟨1, 1, 1⟩, true, 0⟩] = (s', ops, e) ∧
      s'.light_instances = [] ∧
      s'.light_instancing = s'.light_instances ∧
      GpuOp.uploadLightInstances s'.light_instances ∈ ops := by
  obtain ⟨h1, h2, h3⟩ := C4_light_instance_collection Unit Unit Unit allOkDraw
    shadowExampleState ⟨mat4Identity, mat4Identity, (800, 600)⟩
    [⟨⟨1, 1, 1⟩, ⟨1, 1, 1⟩, true, 0⟩]
    (DeferredShading.light_pass allOkDraw shadowExampleState
      ⟨mat4Identity, mat4Identity, (800, 600)⟩
      [⟨⟨1, 1, 1⟩, ⟨1, 1, 1⟩, true, 0⟩]).1
    (DeferredShading.light_pass allOkDraw shadowExampleState
      ⟨mat4Identity, mat4Identity, (800, 600)⟩
      [⟨⟨1, 1, 1⟩, ⟨1, 1, 1⟩, true, 0⟩]).2.1
    (DeferredShading.light_pass allOkDraw shadowExampleState
      ⟨mat4Identity, mat4Identity, (800, 600)⟩
      [⟨⟨1, 1, 1⟩, ⟨1, 1, 1⟩, true, 0⟩]).2.2
    rfl rfl rfl
  refine ⟨(DeferredShading.light_pass allOkDraw shadowExampleState
      ⟨mat4Identity, mat4Identity, (800, 600)⟩
      [⟨⟨1, 1, 1⟩, ⟨1, 1, 1⟩, true, 0⟩]).1,
    (DeferredShading.light_pass allOkDraw shadowExampleState
      ⟨mat4Identity, mat4Identity, (800, 600)⟩
      [⟨⟨1, 1, 1⟩, ⟨1, 1, 1⟩, true, 0⟩]).2.1,
    (DeferredShading.light_pass allOkDraw shadowExampleState
      ⟨mat4Identity, mat4Identity, (800, 600)⟩
      [⟨⟨1, 1, 1⟩, ⟨1, 1, 1⟩, true, 0⟩]).2.2,
    rfl, ?_, h2, h3⟩
  rw [h1]
  rfl

/-- C5: a successful `on_target_resize` reallocates exactly the
resolution-dependent textures — both G-buffer textures, the shadow texture
if and only if one was present, and the light-accumulation texture — at the
new size (with their original formats), and leaves the config, both
programs, the screen quad, the sphere mesh and the light instancing state
unchanged. -/
theorem C5_resize_reallocates_textures_only :
    ∀ (P Q M : Type) (a : TexAlloc) (s : DeferredShading P Q M)
      (sz : Nat × Nat) (s' : DeferredShading P Q M) (a' : TexAlloc),
      DeferredShading.on_target_resize a s sz = .ok (s', a') →
      (s'.scene_textures.1.width = sz.1 ∧ s'.scene_textures.1.height = sz.2 ∧
        s'.scene_textures.1.fmt = .F32F32F32F32) ∧
      (s'.scene_textures.2.width = sz.1 ∧ s'.scene_textures.2.height = sz.2 ∧
        s'.scene_textures.2.fmt = .F32F32F32F32) ∧
      s'.shadow_texture.isSome = s.shadow_texture.isSome ∧
      (∀ t, s'.shadow_texture = some t →
        t.width = sz.1 ∧ t.height = sz.2 ∧ t.fmt = .F32) ∧
      (s'.light_texture.width = sz.1 ∧ s'.light_texture.height = sz.2 ∧
        s'.light_texture.fmt = .F32F32F32F32) ∧
      s'.config = s.config ∧
      s'.main_light_screen_quad_program = s.main_light_screen_quad_program ∧
      s'.light_object_program = s.light_object_program ∧
      s'.screen_quad = s.screen_quad ∧
      s'.sphere = s.sphere ∧
      s'.light_instances = s.light_instances ∧
      s'.light_instancing = s.light_instancing := by
  intro P Q M a s sz s' a' h
  rw [DeferredShading.on_target_resize, create_texture, allocTex] at h
  by_cases hf0 : a.fail a.nextId
  · rw [if_pos hf0] at h
    cases h
  rw [if_neg hf0] at h
  dsimp only at h
  rw [create_texture, allocTex] at h
  dsimp only at h
  by_cases hf1 : a.fail (a.nextId + 1)
  · rw [if_pos hf1] at h
    cases h
  rw [if_neg hf1] at h
  dsimp only at h
  cases hst : s.shadow_texture with
  | none =>
    rw [hst] at h
    dsimp only at h
    rw [create_texture, allocTex] at h
    dsimp only at h
    by_cases hf2 : a.fail (a.nextId + 1 + 1)
    · rw [if_pos hf2] at h
      cases h
    rw [if_neg hf2] at h
    try dsimp only at h
    injection h with h'
    rw [Prod.mk.injEq] at h'
    obtain ⟨hs, -⟩ := h'
    subst hs
    refine ⟨⟨rfl, rfl, rfl⟩, ⟨rfl, rfl, rfl⟩, by simp [hst], ?_,
      ⟨rfl, rfl, rfl⟩, rfl, rfl, rfl, rfl, rfl, rfl, rfl⟩
    intro t ht
    cases ht
  | some t0' =>
    rw [hst] at h
    dsimp only at h
    rw [create_shadow_texture, allocTex] at h
    dsimp only at h
    by_cases hf2 : a.fail (a.nextId + 1 + 1)
    · rw [if_pos hf2] at h
      cases h
    rw [if_neg hf2] at h
    dsimp only [Except.map] at h
    rw [create_texture, allocTex] at h
    try dsimp only at h
    by_cases hf3 : a.fail (a.nextId + 1 + 1 + 1)
    · rw [if_pos hf3] at h
      cases h
    rw [if_neg hf3] at h
    try dsimp only at h
    injection h with h'
    rw [Prod.mk.injEq] at h'
    obtain ⟨hs, -⟩ := h'
    subst hs
    refine ⟨⟨rfl, rfl, rfl⟩, ⟨rfl, rfl, rfl⟩, by simp [hst], ?_,
      ⟨rfl, rfl, rfl⟩, rfl, rfl, rfl, rfl, rfl, rfl, rfl⟩
    intro t ht
    cases ht
    exact ⟨rfl, rfl, rfl⟩

/-- The state produced by resizing `shadowExampleState` to 1024×768 under
`okTexAlloc`. -/
def resizedExampleState : DeferredShading Unit Unit Unit :=
  { shadowExampleState with
    scene_textures :=
      (⟨0, 1024, 768, .F32F32F32F32⟩, ⟨1, 1024, 768, .F32F32F32F32⟩),
    shadow_texture := some ⟨2, 1024, 768, .F32⟩,
    light_texture := ⟨3, 1024, 768, .F32F32F32F32⟩ }

theorem C5_resize_reallocates_textures_only_witness :
    (resizedExampleState.scene_textures.1.width = 1024 ∧
      resizedExampleState.scene_textures.1.height = 768 ∧
      resizedExampleState.scene_textures.1.fmt = .F32F32F32F32) ∧
    (resizedExampleState.scene_textures.2.width = 1024 ∧
      resizedExampleState.scene_textures.2.height = 768 ∧
      resizedExampleState.scene_textures.2.fmt = .F32F32F32F32) ∧
    resizedExampleState.shadow_texture.isSome
      = shadowExampleState.shadow_texture.isSome ∧
    (∀ t, resizedExampleState.shadow_texture = some t →
      t.width = 1024 ∧ t.height = 768 ∧ t.fmt = .F32) ∧
    (resizedExampleState.light_texture.width = 1024 ∧
      resizedExampleState.light_texture.height = 768 ∧
      resizedExampleState.light_texture.fmt = .F32F32F32F32) ∧
    resizedExampleState.config = shadowExampleState.config ∧
    resizedExampleState.main_light_screen_quad_program
      = shadowExampleState.main_light_screen_quad_program ∧
    resizedExampleState.light_object_program
      = shadowExampleState.light_object_program ∧
    resizedExampleState.screen_quad = shadowExampleState.screen_quad ∧
    resizedExampleState.sphere = shadowExampleState.sphere ∧
    resizedExampleState.light_instances = shadowExampleState.light_instances ∧
    resizedExampleState.light_instancing = shadowExampleState.light_instancing :=
  C5_resize_reallocates_textures_only Unit Unit Unit okTexAlloc
    shadowExampleState (1024, 768) resizedExampleState ⟨4, okTexAlloc.fail⟩ rfl

/-- C8: a successful `DeferredShading::create` yields a state whose
scene-pass `output_textures()` are exactly the two named G-buffer textures,
plus the named shadow texture exactly when `have_shadows` was set: 2 named
output textures without shadows, 3 with. -/
theorem C8_output_texture_count :
    ∀ (P Q M : Type) (fac : DeferredFacade P Q M) (a : TexAlloc)
      (config : Config) (have_shadows : Bool) (sz : Nat × Nat)
      (s' : DeferredShading P Q M) (a' : TexAlloc),
      DeferredShading.create fac a config have_shadows sz = .ok (s', a') →
      s'.output_textures.map Prod.fst =
        (if have_shadows then ["f_world_pos", "f_world_normal", "f_shadow"]
         else ["f_world_pos", "f_world_normal"]) ∧
      s'.output_textures.length = (if have_shadows then 3 else 2) := by
  intro P Q M fac a config have_shadows sz s' a' h
  rw [DeferredShading.create, create_texture, allocTex] at h
  by_cases hf0 : a.fail a.nextId
  · rw [if_pos hf0] at h
    cases h
  rw [if_neg hf0] at h
  try dsimp only at h
  rw [create_texture, allocTex] at h
  try dsimp only at h
  by_cases hf1 : a.fail (a.nextId + 1)
  · rw [if_pos hf1] at h
    cases h
  rw [if_neg hf1] at h
  try dsimp only at h
  cases have_shadows with
  | false =>
    rw [if_neg Bool.false_ne_true] at h
    try dsimp only at h
    rw [create_texture, allocTex] at h
    try dsimp only at h
    by_cases hf2 : a.fail (a.nextId + 1 + 1)
    · rw [if_pos hf2] at h
      cases h
    rw [if_neg hf2] at h
    try dsimp only at h
    cases hM : fac.mainLightProgram false with
    | error e => rw [hM] at h; cases h
    | ok mp =>
      rw [hM] at h
      cases hL : fac.lightObjectProgram with
      | error e => rw [hL] at h; cases h
      | ok lp =>
        rw [hL] at h
        cases hQ : fac.screenQuadCreate with
        | error e => rw [hQ] at h; cases h
        | ok q =>
          rw [hQ] at h
          cases hS : fac.sphereMesh with
          | error e => rw [hS] at h; cases h
          | ok sp =>
            rw [hS] at h
            cases hI : fac.lightInstancingCreate with
            | error e => rw [hI] at h; cases h
            | ok u =>
              rw [hI] at h
              injection h with h'
              rw [Prod.mk.injEq] at h'
              obtain ⟨hs, -⟩ := h'
              subst hs
              simp [DeferredShading.output_textures]
  | true =>
    rw [if_pos rfl] at h
    try dsimp only at h
    rw [create_shadow_texture, allocTex] at h
    try dsimp only at h
    by_cases hf2 : a.fail (a.nextId + 1 + 1)
    · rw [if_pos hf2] at h
      cases h
    rw [if_neg hf2] at h
    dsimp only [Except.map] at h
    rw [create_texture, allocTex] at h
    try dsimp only at h
    by_cases hf3 : a.fail (a.nextId + 1 + 1 + 1)
    · rw [if_pos hf3] at h
      cases h
    rw [if_neg hf3] at h
    try dsimp only at h
    cases hM : fac.mainLightProgram true with
    | error e => rw [hM] at h; cases h
    | ok mp =>
      rw [hM] at h
      cases hL : fac.lightObjectProgram with
      | error e => rw [hL] at h; cases h
      | ok lp =>
        rw [hL] at h
        cases hQ : fac.screenQuadCreate with
        | error e => rw [hQ] at h; cases h
        | ok q =>
          rw [hQ] at h
          cases hS : fac.sphereMesh with
          | error e => rw [hS] at h; cases h
          | ok sp =>
            rw [hS] at h
            cases hI : fac.lightInstancingCreate with
            | error e => rw [hI] at h; cases h
            | ok u =>
              rw [hI] at h
              injection h with h'
              rw [Prod.mk.injEq] at h'
              obtain ⟨hs, -⟩ := h'
              subst hs
              simp [DeferredShading.output_textures]

theorem C8_output_texture_count_witness :
    shadowExampleState.output_textures.map Prod.fst
        = ["f_world_pos", "f_world_normal", "f_shadow"] ∧
    shadowExampleState.output_textures.length = 3 := by
  have h := C8_output_texture_count Unit Unit Unit okFacade okTexAlloc
    Config.default true (800, 600) shadowExampleState ⟨4, okTexAlloc.fail⟩
    rfl
  simpa using h

/-- Recognizes the full-screen main-light draws in a `light_pass` trace. -/
def GpuOp.isMainDraw {P Q M : Type} : GpuOp P Q M → Bool
  | .drawMainLight .. => true
  | _ => false

theorem mainLightDrawLoop_ops {P Q M : Type} (draw_ok : Nat → Bool) (prog : P)
    (quad : Q) (tex : TextureUniforms) (vp : ℝ × ℝ) :
    ∀ (lights : List Light) (idx : Nat),
      ∀ op ∈ (mainLightDrawLoop (M := M) draw_ok prog quad tex vp idx lights).1,
        ∃ l, op = .drawMainLight prog quad tex
          ⟨mat4Identity, mat4Identity, vp⟩ l lightPassDrawParams := by
  intro lights
  induction lights with
  | nil =>
    intro idx op hop
    simp [mainLightDrawLoop] at hop
  | cons l rest ih =>
    intro idx op hop
    rw [mainLightDrawLoop] at hop
    by_cases hm : l.is_main = true
    · rw [if_pos hm] at hop
      by_cases hd : draw_ok idx = true
      · rw [if_pos hd] at hop
        dsimp only at hop
        rcases List.mem_cons.mp hop with hop | hop
        · exact ⟨l, hop⟩
        · exact ih (idx + 1) op hop
      · rw [if_neg hd] at hop
        simp at hop
    · rw [if_neg hm] at hop
      exact ih idx op hop

theorem mainLightDrawLoop_filter {P Q M : Type} (draw_ok : Nat → Bool)
    (prog : P) (quad : Q) (tex : TextureUniforms) (vp : ℝ × ℝ)
    (lights : List Light) (idx : Nat) :
    (mainLightDrawLoop (M := M) draw_ok prog quad tex vp idx lights).1.filter
      GpuOp.isMainDraw
      = (mainLightDrawLoop (M := M) draw_ok prog quad tex vp idx lights).1 := by
  rw [List.filter_eq_self]
  intro op hop
  obtain ⟨l, rfl⟩ := mainLightDrawLoop_ops draw_ok prog quad tex vp lights idx
    op hop
  rfl

theorem drawPhase_filter {P Q M : Type} (draw_ok : Nat → Bool) (prog_main : P)
    (quad : Q) (prog_obj : P) (sphere : M) (tex : TextureUniforms)
    (camera : Camera) (instances lights : List Light) :
    (drawPhase draw_ok prog_main quad prog_obj sphere tex camera instances
        lights).1.filter GpuOp.isMainDraw
      = (mainLightDrawLoop (M := M) draw_ok prog_main quad tex
          camera.viewport_size 0 lights).1 := by
  rw [drawPhase]
  cases he : (mainLightDrawLoop (M := M) draw_ok prog_main quad tex
      camera.viewport_size 0 lights).2.2 with
  | some err =>
    exact mainLightDrawLoop_filter draw_ok prog_main quad tex
      camera.viewport_size lights 0
  | none =>
    by_cases hd : draw_ok (mainLightDrawLoop (M := M) draw_ok prog_main quad
        tex camera.viewport_size 0 lights).2.1 = true
    · rw [if_pos hd]
      dsimp only
      rw [List.filter_append]
      rw [mainLightDrawLoop_filter draw_ok prog_main quad tex
        camera.viewport_size lights 0]
      simp [GpuOp.isMainDraw]
    · rw [if_neg hd]
      exact mainLightDrawLoop_filter draw_ok prog_main quad tex
        camera.viewport_size lights 0

theorem light_pass_ops_ok {P Q M : Type} (df : DrawOracle)
    (s : DeferredShading P Q M) (camera : Camera) (lights : List Light)
    (hfb : df.framebuffer_ok = true) (hup : df.update_ok = true) :
    (DeferredShading.light_pass df s camera lights).2.1
      = [.clearColor s.light_texture (0, 0, 0, 1),
         .uploadLightInstances (collectLightInstances s.config [] lights)]
        ++ (drawPhase df.draw_ok s.main_light_screen_quad_program
            s.screen_quad s.light_object_program s.sphere
            ⟨s.scene_textures.1, s.scene_textures.2, s.shadow_texture⟩
            camera (collectLightInstances s.config [] lights) lights).1 := by
  rw [DeferredShading.light_pass, if_pos hfb]
  dsimp only
  rw [if_pos hup]
  simp

theorem light_pass_ops_noup {P Q M : Type} (df : DrawOracle)
    (s : DeferredShading P Q M) (camera : Camera) (lights : List Light)
    (hfb : df.framebuffer_ok = true) (hup : ¬ df.update_ok = true) :
    (DeferredShading.light_pass df s camera lights).2.1
      = [.clearColor s.light_texture (0, 0, 0, 1)] := by
  rw [DeferredShading.light_pass, if_pos hfb]
  dsimp only
  rw [if_neg hup]

theorem light_pass_ops_nofb {P Q M : Type} (df : DrawOracle)
    (s : DeferredShading P Q M) (camera : Camera) (lights : List Light)
    (hfb : ¬ df.framebuffer_ok = true) :
    (DeferredShading.light_pass df s camera lights).2.1 = [] := by
  rw [DeferredShading.light_pass, if_neg hfb]

/-- C9: the main-light full-screen draws issued by `light_pass` do not
depend on the camera's view or projection matrices: for any two cameras
with the same viewport size, the main-light draw operations of the two runs
are identical, and each is driven by identity view and projection matrices
and the shared viewport size. -/
theorem C9_main_light_camera_independence :
    ∀ (P Q M : Type) (df : DrawOracle) (s : DeferredShading P Q M)
      (lights : List Light) (c1 c2 : Camera),
      c1.viewport_size = c2.viewport_size →
      ((DeferredShading.light_pass df s c1 lights).2.1.filter GpuOp.isMainDraw
        = (DeferredShading.light_pass df s c2 lights).2.1.filter
            GpuOp.isMainDraw) ∧
      (∀ op ∈ (DeferredShading.light_pass df s c1 lights).2.1.filter
          GpuOp.isMainDraw,
        ∃ l, op = .drawMainLight s.main_light_screen_quad_program
          s.screen_quad ⟨s.scene_textures.1, s.scene_textures.2,
            s.shadow_texture⟩
          ⟨mat4Identity, mat4Identity, c1.viewport_size⟩ l
          lightPassDrawParams) := by
  intro P Q M df s lights c1 c2 hvp
  by_cases hfb : df.framebuffer_ok = true
  · by_cases hup : df.update_ok = true
    · constructor
      · rw [light_pass_ops_ok df s c1 lights hfb hup,
          light_pass_ops_ok df s c2 lights hfb hup]
        rw [List.filter_append, List.filter_append]
        rw [drawPhase_filter, drawPhase_filter, hvp]
      · intro op hop
        rw [light_pass_ops_ok df s c1 lights hfb hup,
          List.filter_append, drawPhase_filter] at hop
        rcases List.mem_append.mp hop with hop | hop
        · simp [GpuOp.isMainDraw] at hop
        · exact mainLightDrawLoop_ops df.draw_ok
            s.main_light_screen_quad_program s.screen_quad
            ⟨s.scene_textures.1, s.scene_textures.2, s.shadow_texture⟩
            c1.viewport_size lights 0 op hop
    · constructor
      · rw [light_pass_ops_noup df s c1 lights hfb hup,
          light_pass_ops_noup df s c2 lights hfb hup]
      · intro op hop
        rw [light_pass_ops_noup df s c1 lights hfb hup] at hop
        simp [GpuOp.isMainDraw] at hop
  · constructor
    · rw [light_pass_ops_nofb df s c1 lights hfb,
        light_pass_ops_nofb df s c2 lights hfb]
    · intro op hop
      rw [light_pass_ops_nofb df s c1 lights hfb] at hop
      simp at hop

theorem C9_main_light_camera_independence_witness :
    ((DeferredShading.light_pass allOkDraw shadowExampleState
        ⟨mat4Identity, mat4Identity, (800, 600)⟩
        [⟨⟨1, 1, 1⟩, ⟨1, 1, 1⟩, true, 0⟩]).2.1.filter GpuOp.isMainDraw
      = (DeferredShading.light_pass allOkDraw shadowExampleState
          ⟨(fun _ _ => 2), (fun _ _ => 3), (800, 600)⟩
          [⟨⟨1, 1, 1⟩, ⟨1, 1, 1⟩, true, 0⟩]).2.1.filter GpuOp.isMainDraw) ∧
    (∀ op ∈ (DeferredShading.light_pass allOkDraw shadowExampleState
        ⟨mat4Identity, mat4Identity, (800, 600)⟩
        [⟨⟨1, 1, 1⟩, ⟨1, 1, 1⟩, true, 0⟩]).2.1.filter GpuOp.isMainDraw,
      ∃ l, op = .drawMainLight
        shadowExampleState.main_light_screen_quad_program
        shadowExampleState.screen_quad
        ⟨shadowExampleState.scene_textures.1,
         shadowExampleState.scene_textures.2,
         shadowExampleState.shadow_texture⟩
        ⟨mat4Identity, mat4Identity,
         (⟨mat4Identity, mat4Identity, (800, 600)⟩ : Camera).viewport_size⟩
        l lightPassDrawParams) :=
  C9_main_light_camera_independence Unit Unit Unit allOkDraw
    shadowExampleState [⟨⟨1, 1, 1⟩, ⟨1, 1, 1⟩, true, 0⟩]
    ⟨mat4Identity, mat4Identity, (800, 600)⟩
    ⟨(fun _ _ => 2), (fun _ _ => 3), (800, 600)⟩ rfl

end Rendology
